import Mathlib

/-!
Shallow embedding of the vision-iot-pi5 repository:
  - src/apps/pi_detector/mqtt_client.py  (class MqttClient)
  - src/apps/pi_detector/main.py         (function main)
  - src/apps/streamlit_dashboard/Home.py (bounded queue + consumer loop)

Python floats are modelled as Rat (the concrete values involved are exactly
representable), JSON values as a structured inductive (the stdlib json
dumps/loads pair is modelled as the identity on that structure), and the
side effects performed against the underlying paho client / OpenCV / the
process as an explicit event trace carried in the state.
-/

/-- Structured JSON value, the model of a Python dict/list payload.
Object fields keep insertion order, as Python dicts do. -/
inductive Json where
  | null : Json
  | str (s : String) : Json
  | num (q : Rat) : Json
  | jbool (b : Bool) : Json
  | arr (xs : List Json) : Json
  | obj (kvs : List (String × Json)) : Json
deriving Repr

/-- Python dict .get(k): first binding of the key in an object, else none. -/
def Json.getField : Json → String → Option Json
  | Json.obj kvs, k => kvs.lookup k
  | _, _ => none

/-- One observable side effect of the pi_detector process: a call made on the
underlying paho client (will_set / connect / loop_start / publish), the
delivery of a connection acknowledgment to the on_connect callback, a sleep,
or a pipeline step of main (camera, model, frame handling). -/
inductive Step where
  | willSet (topic : String) (payload : Json) (qos : Nat) (retain : Bool) : Step
  | connectAttempt : Step
  | sleep (d : Rat) : Step
  | loopStart : Step
  | connack (rc : Nat) : Step
  | pub (topic : String) (payload : Json) (qos : Nat) (retain : Bool) : Step
  | cameraOpen : Step
  | modelInit : Step
  | frameRead (ok : Bool) : Step
  | showFrame : Step
deriving Repr

/-- State of an MqttClient instance (mqtt_client.py, lines 11-30), together
with the trace of effects performed so far (`events`). -/
structure MqttClient where
  host : String
  port : Int
  keepalive : Int
  qos : Nat
  base_topic : String
  connected : Bool
  events : List Step
deriving Repr

/-- Append one effect to the trace. -/
def MqttClient.addE (s : MqttClient) (e : Step) : MqttClient :=
  { s with events := s.events ++ [e] }

/-- Python str.rstrip applied with the single character '/': drop every
trailing '/' from the string. -/
def rstripSlash (s : String) : String :=
  String.mk ((s.data.reverse.dropWhile (fun c => c = '/')).reverse)

/-- MqttClient.__init__ (mqtt_client.py lines 11-30): stores the
configuration, strips trailing slashes from base_topic, starts
disconnected, and sets the last will on the underlying client: topic
base_topic/status, payload the object mapping "state" to "lost" (no
timestamp field), qos 1, retained. The body performs no validation of
host, port or base_topic and has no failing path. -/
def MqttClient.init (host : String) (port : Int) (client_id : String)
    (keepalive : Int) (qos : Nat) (base_topic : String) : MqttClient :=
  let bt := rstripSlash base_topic
  { host := host
    port := port
    keepalive := keepalive
    qos := qos
    base_topic := bt
    connected := false
    events := [Step.willSet (bt ++ "/status") (Json.obj [("state", Json.str "lost")]) 1 true] }

/-- MqttClient.publish (mqtt_client.py lines 61-64): builds the topic
base_topic/suffix, serialises the payload, and unconditionally calls
cli.publish with qos defaulting to the configured qos. It never consults
`connected`, and the Python method returns None (no outcome is reported). -/
def MqttClient.publish (s : MqttClient) (suffix : String) (payload : Json)
    (retain : Bool) (qos : Option Nat) : MqttClient :=
  let topic := s.base_topic ++ "/" ++ suffix
  s.addE (Step.pub topic payload (qos.getD s.qos) retain)

/-- _on_connect (mqtt_client.py lines 32-40), invoked by the network loop
when a CONNACK with result code rc arrives: sets connected to (rc = 0) and,
on success, publishes the retained qos-1 online status carrying a
timestamp ts (time.time() is modelled as the parameter ts). -/
def MqttClient.on_connect (s : MqttClient) (rc : Nat) (ts : Rat) : MqttClient :=
  let s1 := { s with connected := rc == 0, events := s.events ++ [Step.connack rc] }
  if rc == 0 then
    s1.publish "status" (Json.obj [("state", Json.str "online"), ("ts", Json.num ts)]) true (some 1)
  else s1

/-- _on_disconnect (mqtt_client.py lines 42-44). -/
def MqttClient.on_disconnect (s : MqttClient) : MqttClient :=
  { s with connected := false }

/-- MqttClient.connect_and_loop (mqtt_client.py lines 49-59): repeatedly
calls cli.connect; on success calls loop_start and returns, on an exception
sleeps for the current backoff and doubles it (capped at 30.0). `outcomes`
gives, for each successive cli.connect call, whether it returns normally
(true) or raises (false); the Bool of the result tells whether the method
has returned within those attempts (false = still retrying, it never
returns by itself). -/
def MqttClient.connect_and_loop : MqttClient → Rat → List Bool → MqttClient × Bool
  | s, _, [] => (s, false)
  | s, backoff, ok :: rest =>
    let s1 := s.addE Step.connectAttempt
    if ok then (s1.addE Step.loopStart, true)
    else MqttClient.connect_and_loop (s1.addE (Step.sleep backoff)) (min (backoff * 2) 30) rest

/-- The error type the specification names for configuration failures. It
never occurs anywhere in mqtt_client.py: no exception is raised by
MqttClient.__init__. -/
inductive ConfigError where
  | invalid (msg : String) : ConfigError
deriving Repr, DecidableEq

/-- MqttClient.__init__ viewed as a fallible Python call: since its body
contains no raise and no call that can fail on any input value, every
execution path returns the constructed client. -/
def MqttClient.initE (host : String) (port : Int) (client_id : String)
    (keepalive : Int) (qos : Nat) (base_topic : String) :
    Except ConfigError MqttClient :=
  Except.ok (MqttClient.init host port client_id keepalive qos base_topic)

/-- One detection dict produced by OnnxYolo.predict: a class label, a bbox
[x1, y1, x2, y2] and a confidence. -/
structure Det where
  cls : String
  xyxy : List Rat
  conf : Rat
deriving Repr

/-- Python round(q, 3): round to 3 decimal places. (Python rounds exact
halves to even; the two agree away from exact half-thousandths, and every
value used in a theorem below is away from them.) -/
def pyRound3 (q : Rat) : Rat :=
  (round (q * 1000) : Int) / 1000

/-- The detections payload dict built in main.py lines 75-82: keys in
insertion order ts, fps, pieces_ok, pieces_ng, bboxes, confs; pieces_ok
counts detections whose cls is "ok", pieces_ng those whose cls is
"defect"; confidences are rounded to 3 decimals on encode. -/
def detPayload (ts fps : Rat) (dets : List Det) : Json :=
  Json.obj
    [ ("ts", Json.num ts)
    , ("fps", Json.num fps)
    , ("pieces_ok", Json.num ((dets.countP (fun d => d.cls == "ok") : Nat) : Rat))
    , ("pieces_ng", Json.num ((dets.countP (fun d => d.cls == "defect") : Nat) : Rat))
    , ("bboxes", Json.arr (dets.map (fun d => Json.arr (d.xyxy.map Json.num))))
    , ("confs", Json.arr (dets.map (fun d => Json.num (pyRound3 d.conf)))) ]

/-- One camera frame as seen by an iteration of the capture loop of main.py
(lines 66-87): whether cap.read succeeded, the detections the model returns
on it, and the values time.time() and next(fps) yield there. -/
structure Frame where
  readOk : Bool
  dets : List Det
  ts : Rat
  fps : Rat
deriving Repr

/-- One iteration of the while-running loop of main.py lines 66-87: a
failed read sleeps 0.02 and continues; a successful read runs the model,
publishes the detections payload (retain false, qos defaulted) and shows
the frame. -/
def frameStep (s : MqttClient) (f : Frame) : MqttClient :=
  if f.readOk then
    ((s.addE (Step.frameRead true)).publish "detections"
        (detPayload f.ts f.fps f.dets) false none).addE Step.showFrame
  else
    (s.addE (Step.frameRead false)).addE (Step.sleep (1 / 50))

/-- The main-thread run of main() (main.py lines 21-92), from the broker
config values: construct the MqttClient, call connect_and_loop (whose
successive cli.connect outcomes are `outcomes`), and only if that returned:
open the camera (exit code 2 when it cannot be opened), initialise the
model, run the capture loop over `frames` (the loop ends when running is
cleared by SIGINT/SIGTERM or ESC is pressed), release the camera and
publish the retained qos-1 offline status stamped tsEnd. Result: final
client state, exit code, and whether main got past connect_and_loop
(false = still blocked inside it after the given attempts). The on_connect
callback runs on the paho network thread and is therefore not part of this
main-thread trace. -/
def mainRun (host : String) (port : Int) (client_id : String) (keepalive : Int)
    (qos : Nat) (base_topic : String) (outcomes : List Bool) (camOk : Bool)
    (frames : List Frame) (tsEnd : Rat) : MqttClient × Int × Bool :=
  let s0 := MqttClient.init host port client_id keepalive qos base_topic
  let r := MqttClient.connect_and_loop s0 1 outcomes
  if r.2 = false then (r.1, 0, false)
  else
    let s2 := r.1.addE Step.cameraOpen
    if camOk = false then (s2, 2, true)
    else
      let s3 := s2.addE Step.modelInit
      let s4 := frames.foldl frameStep s3
      let s5 := s4.publish "status"
        (Json.obj [("state", Json.str "offline"), ("ts", Json.num tsEnd)]) true (some 1)
      (s5, 0, true)

/-- The MQTT-client-side run used for connection scenarios: construct the
client, run connect_and_loop over the given cli.connect outcomes, and, when
it returned (so loop_start was called), deliver the CONNACK with result
code rc to the on_connect callback, time.time() there being ts. -/
def clientRun (host : String) (port : Int) (client_id : String) (keepalive : Int)
    (qos : Nat) (base_topic : String) (outcomes : List Bool) (rc : Nat) (ts : Rat) :
    MqttClient :=
  let s0 := MqttClient.init host port client_id keepalive qos base_topic
  let r := MqttClient.connect_and_loop s0 1 outcomes
  if r.2 then r.1.on_connect rc ts else r.1

/-- queue.Queue(maxsize=200).put_nowait as used in Home.py on_msg (lines
9-14): if the queue is below capacity the item is appended at the back;
otherwise put_nowait raises queue.Full, the except swallows it, and the
queue is left unchanged (the new item is rejected, nothing is evicted,
nothing blocks). -/
def put_nowait (cap : Nat) (q : List Json) (x : Json) : List Json :=
  if q.length < cap then q ++ [x] else q

/-- Feeding a burst of decoded messages into the queue, one on_msg call per
message, with no consumer draining in between. -/
def pushAll (cap : Nat) (q : List Json) (xs : List Json) : List Json :=
  xs.foldl (put_nowait cap) q

/-- The maxsize the dashboard constructs its inbound queue with
(Home.py line 5). -/
def dashboardQueueCap : Nat := 200

/-- What one iteration of the dashboard consumer loop does. The source can
only ever produce the first two; repoll exists so that the behaviour the
specification describes (keep polling after a timeout) is expressible in
the same type. -/
inductive ConsumerAction where
  | rerun (fps okc ng : Json) : ConsumerAction
  | repoll : ConsumerAction
  | stopped : ConsumerAction
deriving Repr

/-- The timeout (in time-units, i.e. seconds) passed to msg_q.get in the
consumer loop (Home.py line 30). -/
def consumerPollTimeout : Rat := 1

/-- One iteration of the consumer loop of Home.py lines 28-36. `item` is
what msg_q.get(timeout=1) yields: some data when a message arrived within
the timeout, none when it timed out raising queue.Empty. On data, the
three metrics are written (FPS from data.get("fps", 0), OK from
data.get("pieces_ok", 0), DEFECT from data.get("pieces_ng", 0): the .1f
formatting of FPS is abstracted away) and st.experimental_rerun is
triggered. On timeout the exception lands in the except branch, which
calls st.stop(): the loop does not poll again. -/
def consumerIter (item : Option Json) : ConsumerAction :=
  match item with
  | some d =>
      ConsumerAction.rerun ((d.getField "fps").getD (Json.num 0))
        ((d.getField "pieces_ok").getD (Json.num 0))
        ((d.getField "pieces_ng").getD (Json.num 0))
  | none => ConsumerAction.stopped

/-- Bool test: is this step a cli.connect call? -/
def isConnectAttempt : Step → Bool
  | Step.connectAttempt => true
  | _ => false

/-- Bool test: is this step the opening of the camera by main? -/
def isCameraOpen : Step → Bool
  | Step.cameraOpen => true
  | _ => false

/-- Bool test: a will_set call on the underlying client. -/
def isWillSet : Step → Bool
  | Step.willSet _ _ _ _ => true
  | _ => false

/-- Bool test: a publish to topic bt/status whose payload maps "state" to
the string st. -/
def isStatusPub (bt st : String) : Step → Bool
  | Step.pub t p _ _ =>
      t == bt ++ "/status" &&
        (match p.getField "state" with
         | some (Json.str s) => s == st
         | _ => false)
  | _ => false

/-- Bool test: a publish to the detections topic under base topic bt. -/
def isDetectionsPub (bt : String) : Step → Bool
  | Step.pub t _ _ _ => t == bt ++ "/detections"
  | _ => false

/-- The sleeps performed so far, in order (used to read off the backoff
sequence of connect_and_loop). -/
def sleepsOf (s : MqttClient) : List Rat :=
  s.events.filterMap (fun e => match e with | Step.sleep d => some d | _ => none)

/-- The trace of n consecutive failed cli.connect attempts of
connect_and_loop, starting from backoff b: each failure is the connect
call followed by the sleep, with the backoff doubling (capped at 30)
between failures. -/
def failTrace : Rat → Nat → List Step
  | _, 0 => []
  | b, n + 1 => Step.connectAttempt :: Step.sleep b :: failTrace (min (b * 2) 30) n

/-- The successive sleep durations of n consecutive failed connect
attempts starting from backoff b (the sleep happens before the backoff is
doubled, exactly as in mqtt_client.py lines 58-59). -/
def sleepSeq : Rat → Nat → List Rat
  | _, 0 => []
  | b, n + 1 => b :: sleepSeq (min (b * 2) 30) n

/-- The trace connect_and_loop appends for an arbitrary outcome sequence:
each failed attempt contributes the connect call and the sleep, a
successful attempt contributes the connect call and loop_start and ends
the trace. -/
def connectTrace : Rat → List Bool → List Step
  | _, [] => []
  | _, true :: _ => [Step.connectAttempt, Step.loopStart]
  | b, false :: rest => Step.connectAttempt :: Step.sleep b :: connectTrace (min (b * 2) 30) rest

/-- The trace one capture-loop iteration appends, for a client whose base
topic is bt and configured qos is q. -/
def frameEvs (bt : String) (q : Nat) (f : Frame) : List Step :=
  if f.readOk then
    [Step.frameRead true,
     Step.pub (bt ++ "/" ++ "detections") (detPayload f.ts f.fps f.dets) q false,
     Step.showFrame]
  else
    [Step.frameRead false, Step.sleep (1 / 50)]

/-- The trace of the whole capture loop over a list of frames. -/
def framesTrace (bt : String) (q : Nat) : List Frame → List Step
  | [] => []
  | f :: fs => frameEvs bt q f ++ framesTrace bt q fs

/-- A concrete freshly constructed client, used by the concrete-input
theorems: localhost broker and the default base topic of main.py. -/
def s0ex : MqttClient :=
  MqttClient.init "localhost" 1883 "pi" 60 0 "factory/line1"

/-- The single detection of the round-trip scenario: class defect, bbox
[10, 20, 30, 40], confidence 0.87. -/
def c10dets : List Det :=
  [{ cls := "defect", xyxy := [10, 20, 30, 40], conf := 87 / 100 }]

/-- The client-side trace of the fail-fail-succeed connection scenario:
localhost broker, default base topic, CONNACK result code 0, time.time()
at the CONNACK being ts. -/
def c6run (ts : Rat) : List Step :=
  (clientRun "localhost" 1883 "pi" 60 0 "factory/line1" [false, false, true] 0 ts).events

theorem connect_and_loop_failures (n : Nat) : ∀ (s : MqttClient) (b : Rat),
    MqttClient.connect_and_loop s b (List.replicate n false) =
      ({ s with events := s.events ++ failTrace b n }, false) := by
  induction n with
  | zero =>
      intro s b
      simp [MqttClient.connect_and_loop, failTrace]
  | succ n ih =>
      intro s b
      simp [List.replicate_succ, MqttClient.connect_and_loop, MqttClient.addE, failTrace,
        ih, List.append_assoc]

theorem connect_and_loop_succeeds (n : Nat) : ∀ (s : MqttClient) (b : Rat),
    MqttClient.connect_and_loop s b (List.replicate n false ++ [true]) =
      ({ s with events := s.events ++ (failTrace b n ++ [Step.connectAttempt, Step.loopStart]) },
        true) := by
  induction n with
  | zero =>
      intro s b
      simp [MqttClient.connect_and_loop, MqttClient.addE, failTrace, List.append_assoc]
  | succ n ih =>
      intro s b
      simp [List.replicate_succ, MqttClient.connect_and_loop, MqttClient.addE, failTrace,
        ih, List.append_assoc]

theorem connect_and_loop_returned (o : List Bool) : ∀ (s : MqttClient) (b : Rat),
    (MqttClient.connect_and_loop s b o).2 = o.any id := by
  induction o with
  | nil =>
      intro s b
      simp [MqttClient.connect_and_loop]
  | cons ok rest ih =>
      intro s b
      cases ok <;> simp [MqttClient.connect_and_loop, MqttClient.addE, ih]

theorem any_id_replicate_false (n : Nat) : (List.replicate n false).any id = false := by
  induction n with
  | zero => rfl
  | succ n ih => simp [List.replicate_succ, ih]

theorem countP_failTrace_connect (n : Nat) : ∀ b,
    List.countP isConnectAttempt (failTrace b n) = n := by
  induction n with
  | zero => intro b; rfl
  | succ n ih =>
      intro b
      simp [failTrace, List.countP_cons, ih, isConnectAttempt]

theorem countP_failTrace_camera (n : Nat) : ∀ b,
    List.countP isCameraOpen (failTrace b n) = 0 := by
  induction n with
  | zero => intro b; rfl
  | succ n ih =>
      intro b
      simp [failTrace, List.countP_cons, ih, isCameraOpen]

theorem frameStep_eq (s : MqttClient) (f : Frame) :
    frameStep s f = { s with events := s.events ++ frameEvs s.base_topic s.qos f } := by
  cases hf : f.readOk <;>
    simp [frameStep, frameEvs, MqttClient.publish, MqttClient.addE, hf, List.append_assoc]

theorem foldl_frameStep (frames : List Frame) : ∀ (s : MqttClient),
    frames.foldl frameStep s =
      { s with events := s.events ++ framesTrace s.base_topic s.qos frames } := by
  induction frames with
  | nil =>
      intro s
      simp [framesTrace]
  | cons f fs ih =>
      intro s
      rw [List.foldl_cons, frameStep_eq, ih]
      simp [framesTrace, List.append_assoc]

theorem countP_frameEvs_connect (bt : String) (q : Nat) (f : Frame) :
    List.countP isConnectAttempt (frameEvs bt q f) = 0 := by
  cases hf : f.readOk <;> simp [frameEvs, hf, List.countP_cons, isConnectAttempt]

theorem countP_framesTrace_connect (bt : String) (q : Nat) (frames : List Frame) :
    List.countP isConnectAttempt (framesTrace bt q frames) = 0 := by
  induction frames with
  | nil => rfl
  | cons f fs ih =>
      simp [framesTrace, List.countP_append, ih, countP_frameEvs_connect]

theorem mainRun_success_trace (host : String) (port : Int) (cid : String)
    (ka : Int) (q : Nat) (bt : String) (n : Nat) (frames : List Frame) (tsEnd : Rat) :
    mainRun host port cid ka q bt (List.replicate n false ++ [true]) true frames tsEnd =
      ({ MqttClient.init host port cid ka q bt with
          events := (MqttClient.init host port cid ka q bt).events ++
            (failTrace 1 n ++ [Step.connectAttempt, Step.loopStart]) ++
            [Step.cameraOpen] ++ [Step.modelInit] ++
            framesTrace (rstripSlash bt) q frames ++
            [Step.pub (rstripSlash bt ++ "/" ++ "status")
              (Json.obj [("state", Json.str "offline"), ("ts", Json.num tsEnd)]) 1 true] },
        0, true) := by
  simp [mainRun, connect_and_loop_succeeds, MqttClient.addE, foldl_frameStep,
    MqttClient.publish, MqttClient.init, List.append_assoc]

theorem connect_and_loop_events (o : List Bool) : ∀ (s : MqttClient) (b : Rat),
    (MqttClient.connect_and_loop s b o).1.events = s.events ++ connectTrace b o := by
  induction o with
  | nil =>
      intro s b
      simp [MqttClient.connect_and_loop, connectTrace]
  | cons ok rest ih =>
      intro s b
      cases ok
      · simp [MqttClient.connect_and_loop, MqttClient.addE, connectTrace, ih,
          List.append_assoc]
      · simp [MqttClient.connect_and_loop, MqttClient.addE, connectTrace,
          List.append_assoc]

theorem mainRun_events_prefix (host : String) (port : Int) (cid : String) (ka : Int)
    (q : Nat) (bt : String) (outcomes : List Bool) (camOk : Bool)
    (frames : List Frame) (tsEnd : Rat) :
    ∃ t, (mainRun host port cid ka q bt outcomes camOk frames tsEnd).1.events =
      (MqttClient.init host port cid ka q bt).events ++ t := by
  have ht :=
    connect_and_loop_events outcomes (MqttClient.init host port cid ka q bt) 1
  cases hr : MqttClient.connect_and_loop (MqttClient.init host port cid ka q bt) 1 outcomes with
  | mk s1 flag =>
      rw [hr] at ht
      have ht2 : s1.events =
          (MqttClient.init host port cid ka q bt).events ++ connectTrace 1 outcomes := ht
      cases flag
      · exact ⟨connectTrace 1 outcomes, by simp [mainRun, hr]; exact ht2⟩
      · cases hc : camOk
        · exact ⟨connectTrace 1 outcomes ++ [Step.cameraOpen],
            by simp [mainRun, hr, hc, MqttClient.addE]
               rw [ht2, List.append_assoc]⟩
        · exact ⟨connectTrace 1 outcomes ++ [Step.cameraOpen] ++ [Step.modelInit] ++
              framesTrace s1.base_topic s1.qos frames ++
              [Step.pub (s1.base_topic ++ "/" ++ "status")
                (Json.obj [("state", Json.str "offline"), ("ts", Json.num tsEnd)]) 1 true],
            by simp [mainRun, hr, hc, MqttClient.addE, foldl_frameStep, MqttClient.publish,
                List.append_assoc]
               rw [ht2]
               simp [List.append_assoc]⟩

theorem min_backoff_double (i : Nat) :
    min (min ((2 : Rat) ^ i) 30 * 2) 30 = min ((2 : Rat) ^ (i + 1)) 30 := by
  rcases le_total ((2 : Rat) ^ i) 30 with h | h
  · rw [min_eq_left h, ← pow_succ]
  · rw [min_eq_right h, min_eq_right (by norm_num : (30 : Rat) ≤ 30 * 2)]
    have hle : (2 : Rat) ^ i ≤ 2 ^ (i + 1) := by
      apply pow_le_pow_right₀ one_le_two
      omega
    rw [min_eq_right (le_trans h hle)]

theorem sleepSeq_get (n : Nat) : ∀ (i : Nat) (b : Rat), b = min ((2 : Rat) ^ i) 30 →
    ∀ k, k < n → (sleepSeq b n).get? k = some (min ((2 : Rat) ^ (i + k)) 30) := by
  induction n with
  | zero =>
      intro i b _ k hk
      exact absurd hk (Nat.not_lt_zero k)
  | succ n ih =>
      intro i b hb k hk
      cases k with
      | zero => simp [sleepSeq, hb]
      | succ k =>
          have hb2 : min (b * 2) 30 = min ((2 : Rat) ^ (i + 1)) 30 := by
            rw [hb]
            exact min_backoff_double i
          have h := ih (i + 1) (min (b * 2) 30) hb2 k (by omega)
          have harith : i + 1 + k = i + (k + 1) := by omega
          rw [harith] at h
          simpa [sleepSeq] using h

theorem filterMap_failTrace (n : Nat) : ∀ b,
    (failTrace b n).filterMap
      (fun e => match e with | Step.sleep d => some d | _ => none) = sleepSeq b n := by
  induction n with
  | zero => intro b; rfl
  | succ n ih =>
      intro b
      simp [failTrace, sleepSeq, List.filterMap_cons, ih]

theorem sleepsOf_failures (n : Nat) :
    sleepsOf ((MqttClient.connect_and_loop s0ex 1 (List.replicate n false)).1) =
      sleepSeq 1 n := by
  rw [connect_and_loop_failures]
  simp [sleepsOf, s0ex, MqttClient.init, List.filterMap_append, filterMap_failTrace]

/-- C1 (counterexample): on a concrete client that is not Connected,
publish is not a no-op that drops the message: it hands the message to the
underlying paho client (a cli.publish call is appended to the trace), so
the claim that nothing is sent or queued while disconnected is false. -/
theorem publish_disconnected_not_dropped :
    s0ex.connected = false ∧
    (s0ex.publish "detections" (Json.obj []) false none).events ≠ s0ex.events := by
  refine ⟨rfl, fun h => ?_⟩
  have hlen := congrArg List.length h
  simp [s0ex, MqttClient.init, MqttClient.publish, MqttClient.addE] at hlen

/-- C1 (amended): publish never blocks and never raises, but it does not
consult the connection state and reports no dropped-message outcome (the
Python method returns None): for every client state, connected or not, it
unconditionally performs exactly one cli.publish call with the composed
topic, the payload, the defaulted qos and the retain flag, and changes
nothing else about the client. -/
theorem publish_always_delegates (s : MqttClient) (suffix : String)
    (payload : Json) (retain : Bool) (qos : Option Nat) :
    (s.publish suffix payload retain qos).events =
      s.events ++ [Step.pub (s.base_topic ++ "/" ++ suffix) payload (qos.getD s.qos) retain]
    ∧ (s.publish suffix payload retain qos).connected = s.connected := ⟨rfl, rfl⟩

/-- C2: after the k-th consecutive failed connect attempt the loop sleeps
min(1.0 * 2 ^ (k - 1), 30.0) time-units, for k = 1..20 (read off a run of
20 straight failures), and the loop has no maximum-attempts ceiling: for
every n it is still retrying after n failures (has not returned), and
returns as soon as an attempt succeeds. -/
theorem backoff_schedule_and_retries_unbounded :
    (∀ k ∈ Finset.Icc 1 20,
      (sleepsOf ((MqttClient.connect_and_loop s0ex 1 (List.replicate 20 false)).1)).get? (k - 1)
        = some (min ((1 : Rat) * 2 ^ (k - 1)) 30))
    ∧ (∀ n : Nat, (MqttClient.connect_and_loop s0ex 1 (List.replicate n false ++ [true])).2 = true)
    ∧ (∀ n : Nat, (MqttClient.connect_and_loop s0ex 1 (List.replicate n false)).2 = false) := by
  refine ⟨?_, ?_, ?_⟩
  · intro k hk
    rw [Finset.mem_Icc] at hk
    rw [sleepsOf_failures 20]
    have hb : (1 : Rat) = min ((2 : Rat) ^ 0) 30 := by norm_num
    have h := sleepSeq_get 20 0 1 hb (k - 1) (by omega)
    simpa using h
  · intro n
    rw [connect_and_loop_returned]
    simp [List.any_append, any_id_replicate_false]
  · intro n
    rw [connect_and_loop_returned]
    exact any_id_replicate_false n

/-- C2 (witness): the schedule at k = 5 (sleep 16.0) and a run returning
after 5 failures and one success. -/
theorem backoff_schedule_witness :
    (sleepsOf ((MqttClient.connect_and_loop s0ex 1 (List.replicate 20 false)).1)).get? 4
        = some (min ((1 : Rat) * 2 ^ 4) 30)
    ∧ (MqttClient.connect_and_loop s0ex 1 (List.replicate 5 false ++ [true])).2 = true :=
  ⟨backoff_schedule_and_retries_unbounded.1 5 (by decide),
   backoff_schedule_and_retries_unbounded.2.1 5⟩

/-- C3 (counterexample): the connect call made at pipeline startup is not
asynchronous: with the broker unreachable (here three straight cli.connect
failures, and counting), main is still blocked inside connect_and_loop and
has not opened the camera, so pipeline startup does not proceed while the
broker is unreachable. -/
theorem startup_blocked_while_broker_unreachable :
    (mainRun "localhost" 1883 "pi" 60 0 "factory/line1" [false, false, false] true
        [{ readOk := true, dets := [], ts := 0, fps := 0 }] 0).2.2 = false
    ∧ List.countP isCameraOpen
        (mainRun "localhost" 1883 "pi" 60 0 "factory/line1" [false, false, false] true
          [{ readOk := true, dets := [], ts := 0, fps := 0 }] 0).1.events = 0 := by
  exact ⟨rfl, rfl⟩

/-- C3 (amended): connect_and_loop is synchronous with retry: it returns
only once a cli.connect call succeeds at the socket level (it does not wait
for the MQTT CONNACK, which the started network loop delivers later), and
pipeline startup happens strictly after it returns: after n failures and
one success the camera open appears in the trace after exactly n + 1
connect attempts and before none, while after n failures with no success
main has not proceeded at all. -/
theorem connect_blocks_until_socket_success (n : Nat) (frames : List Frame) (tsEnd : Rat) :
    (∃ pre post,
      (mainRun "localhost" 1883 "pi" 60 0 "factory/line1"
          (List.replicate n false ++ [true]) true frames tsEnd).1.events
        = pre ++ Step.cameraOpen :: post
      ∧ List.countP isConnectAttempt pre = n + 1
      ∧ List.countP isCameraOpen pre = 0
      ∧ List.countP isConnectAttempt post = 0)
    ∧ (mainRun "localhost" 1883 "pi" 60 0 "factory/line1"
        (List.replicate n false) true frames tsEnd).2.2 = false := by
  constructor
  · rw [mainRun_success_trace]
    refine ⟨(MqttClient.init "localhost" 1883 "pi" 60 0 "factory/line1").events ++
        (failTrace 1 n ++ [Step.connectAttempt, Step.loopStart]),
      Step.modelInit :: (framesTrace (rstripSlash "factory/line1") 0 frames ++
        [Step.pub (rstripSlash "factory/line1" ++ "/" ++ "status")
          (Json.obj [("state", Json.str "offline"), ("ts", Json.num tsEnd)]) 1 true]),
      ?_, ?_, ?_, ?_⟩
    · simp [List.append_assoc]
    · simp [MqttClient.init, List.countP_append, List.countP_cons,
        countP_failTrace_connect, isConnectAttempt]
    · simp [MqttClient.init, List.countP_append, List.countP_cons,
        countP_failTrace_camera, isCameraOpen]
    · simp [List.countP_append, List.countP_cons, countP_framesTrace_connect,
        isConnectAttempt]
  · have h := connect_and_loop_failures n (MqttClient.init "localhost" 1883 "pi" 60 0 "factory/line1") 1
    simp [mainRun, h]

/-- C4 (counterexample): constructing the publisher with an empty host, the
out-of-range port 70000 and an empty base_topic does not fail with a
ConfigError: MqttClient.__init__ performs no validation and returns the
constructed client. -/
theorem init_accepts_invalid_config :
    (MqttClient.initE "" 70000 "pi" 60 0 "").isOk = true := rfl

/-- C4 (amended): configuration validates nothing: for every host, port,
client_id, keepalive, qos and base_topic - including empty strings and
ports outside the valid port range - construction succeeds and no
ConfigError is ever raised. -/
theorem init_never_raises_config_error (host : String) (port : Int)
    (cid : String) (ka : Int) (q : Nat) (bt : String) :
    (MqttClient.initE host port cid ka q bt).isOk = true := rfl

/-- C5: in every execution of main - whatever the broker config, the
connect outcomes, the camera and the captured frames - the first effect on
the underlying client is the will_set call: topic base_topic/status (after
trailing-slash stripping), payload exactly the object mapping "state" to
"lost" with no timestamp field, qos 1, retained; and no network connect
attempt occurs at or before that index of the trace, so the last will is
established before any connect attempt. -/
theorem last_will_before_any_connect (host : String) (port : Int) (cid : String)
    (ka : Int) (q : Nat) (bt : String) (outcomes : List Bool) (camOk : Bool)
    (frames : List Frame) (tsEnd : Rat) :
    ((mainRun host port cid ka q bt outcomes camOk frames tsEnd).1.events).get? 0
        = some (Step.willSet (rstripSlash bt ++ "/status")
            (Json.obj [("state", Json.str "lost")]) 1 true)
    ∧ List.countP isConnectAttempt
        (((mainRun host port cid ka q bt outcomes camOk frames tsEnd).1.events).take 1) = 0 := by
  obtain ⟨t, ht⟩ := mainRun_events_prefix host port cid ka q bt outcomes camOk frames tsEnd
  rw [ht]
  constructor
  · simp [MqttClient.init]
  · simp [MqttClient.init, isConnectAttempt]

/-- C6: when connect fails twice and the third attempt succeeds with
CONNACK rc = 0, exactly one online status publish occurs in the client
trace; it sits at index 8, immediately after the CONNACK (index 7) that
follows the third connect attempt (index 5), and it goes to
factory/line1/status with qos 1 and retain true (the trace has 9 events in
total: will_set, three attempts with two sleeps, loop_start, connack,
publish). -/
theorem online_once_after_third_attempt (ts : Rat) :
    List.countP (isStatusPub "factory/line1" "online") (c6run ts) = 1
    ∧ (c6run ts).get? 8 = some (Step.pub "factory/line1/status"
        (Json.obj [("state", Json.str "online"), ("ts", Json.num ts)]) 1 true)
    ∧ (c6run ts).get? 7 = some (Step.connack 0)
    ∧ (c6run ts).get? 5 = some Step.connectAttempt
    ∧ (c6run ts).length = 9 :=
  ⟨rfl, rfl, rfl, rfl, rfl⟩

/-- C7: on a clean shutdown of main (the capture loop has consumed all its
frames and exited), the retained qos-1 offline status to
factory/line1/status is the very last effect of the whole run - in
particular no publish to the detections topic (or any other publish)
occurs after it - and main exits with code 0. -/
theorem offline_published_after_capture_loop (n : Nat) (frames : List Frame) (tsEnd : Rat) :
    (∃ front,
      (mainRun "localhost" 1883 "pi" 60 0 "factory/line1"
          (List.replicate n false ++ [true]) true frames tsEnd).1.events
        = front ++ [Step.pub "factory/line1/status"
            (Json.obj [("state", Json.str "offline"), ("ts", Json.num tsEnd)]) 1 true])
    ∧ (mainRun "localhost" 1883 "pi" 60 0 "factory/line1"
        (List.replicate n false ++ [true]) true frames tsEnd).2.1 = 0
    ∧ (mainRun "localhost" 1883 "pi" 60 0 "factory/line1"
        (List.replicate n false ++ [true]) true frames tsEnd).2.2 = true := by
  rw [mainRun_success_trace]
  refine ⟨⟨(MqttClient.init "localhost" 1883 "pi" 60 0 "factory/line1").events ++
      (failTrace 1 n ++ [Step.connectAttempt, Step.loopStart]) ++ [Step.cameraOpen] ++
      [Step.modelInit] ++ framesTrace (rstripSlash "factory/line1") 0 frames, ?_⟩, rfl, rfl⟩
  have hs : rstripSlash "factory/line1" ++ "/" ++ "status" = "factory/line1/status" := by decide
  rw [← hs]

/-- put_nowait on a queue already at capacity rejects the push: the queue
is unchanged (nothing is evicted, nothing blocks). -/
theorem put_nowait_full (cap : Nat) (q : List Json) (x : Json) (h : cap ≤ q.length) :
    put_nowait cap q x = q := by
  have hn : ¬ q.length < cap := by omega
  simp [put_nowait, hn]

/-- Pushing any burst into a queue already at capacity leaves it unchanged. -/
theorem pushAll_of_full (cap : Nat) (xs : List Json) : ∀ q, cap ≤ q.length →
    pushAll cap q xs = q := by
  induction xs with
  | nil => intro q _; rfl
  | cons x xs ih =>
      intro q h
      have hq : put_nowait cap q x = q := put_nowait_full cap q x h
      calc pushAll cap q (x :: xs) = pushAll cap (put_nowait cap q x) xs := rfl
        _ = pushAll cap q xs := by rw [hq]
        _ = q := ih q h

/-- Closed form of a burst into a queue below capacity: the first
cap - q.length items are appended in arrival order, the rest are
rejected. -/
theorem pushAll_take (cap : Nat) (xs : List Json) : ∀ q, q.length ≤ cap →
    pushAll cap q xs = q ++ xs.take (cap - q.length) := by
  induction xs with
  | nil => intro q _; simp [pushAll]
  | cons x xs ih =>
      intro q h
      rcases Nat.lt_or_ge q.length cap with hlt | hge
      · have hp : put_nowait cap q x = q ++ [x] := by simp [put_nowait, hlt]
        have hlen : (q ++ [x]).length ≤ cap := by simp; omega
        have hstep : pushAll cap q (x :: xs) = pushAll cap (q ++ [x]) xs := by
          simp [pushAll, List.foldl_cons, hp]
        rw [hstep, ih _ hlen]
        have harith : cap - q.length = (cap - (q ++ [x]).length) + 1 := by simp; omega
        rw [harith, List.take_succ_cons, List.append_assoc]
        simp
      · have hq : q.length = cap := by omega
        rw [pushAll_of_full cap (x :: xs) q (by omega)]
        have h0 : cap - q.length = 0 := by omega
        rw [h0]
        simp

/-- The queue never exceeds its capacity. -/
theorem pushAll_length_le (cap : Nat) (xs : List Json) : ∀ q, q.length ≤ cap →
    (pushAll cap q xs).length ≤ cap := by
  intro q h
  rw [pushAll_take cap xs q h]
  simp [List.length_take]
  omega

/-- C8: the dashboard queue (capacity 200) never exceeds its capacity; a
push onto a full queue is rejected without blocking and without evicting
any entry; and when a burst of 250 messages arrives with no draining,
exactly 50 are rejected and the 200 retained entries are the first 200 in
arrival order. -/
theorem bounded_queue_reject_newest :
    (∀ (q : List Json) (x : Json), dashboardQueueCap ≤ q.length →
      put_nowait dashboardQueueCap q x = q)
    ∧ (∀ (xs q : List Json), q.length ≤ dashboardQueueCap →
      (pushAll dashboardQueueCap q xs).length ≤ dashboardQueueCap)
    ∧ (∀ xs : List Json, xs.length = 250 →
      pushAll dashboardQueueCap [] xs = xs.take 200
      ∧ xs.length - (pushAll dashboardQueueCap [] xs).length = 50) := by
  refine ⟨fun q x h => put_nowait_full _ q x h,
    fun xs q h => pushAll_length_le _ xs q h, fun xs hx => ?_⟩
  have h0 : ([] : List Json).length ≤ dashboardQueueCap := by simp
  have ht := pushAll_take dashboardQueueCap xs [] h0
  simp only [List.nil_append, List.length_nil, Nat.sub_zero] at ht
  refine ⟨ht, ?_⟩
  rw [ht, hx, List.length_take]
  simp [dashboardQueueCap, hx]

set_option maxRecDepth 4000 in
/-- C8 (witness): a push onto a full concrete queue of 200 entries is
rejected, and a burst of 250 concrete messages retains exactly the first
200. -/
theorem bounded_queue_reject_newest_witness :
    put_nowait dashboardQueueCap (List.replicate 200 Json.null) Json.null
        = List.replicate 200 Json.null
    ∧ pushAll dashboardQueueCap [] (List.replicate 250 Json.null)
        = (List.replicate 250 Json.null).take 200 :=
  ⟨bounded_queue_reject_newest.1 _ _ (by decide),
   (bounded_queue_reject_newest.2.2 _ (by decide)).1⟩

/-- C9 (counterexample): when msg_q.get times out with no value, the
consumer loop does not re-poll: the queue.Empty exception lands in the
except branch, which calls st.stop(), ending the loop. -/
theorem consumer_stops_on_timeout :
    consumerIter none = ConsumerAction.stopped
    ∧ consumerIter none ≠ ConsumerAction.repoll := by
  refine ⟨rfl, fun h => ?_⟩
  exact ConsumerAction.noConfusion h

/-- C9 (amended): the consumer loop polls the queue with a bounded wait of
1 time-unit; when a value arrives it updates the three displayed metrics
(FPS, OK count, defect count, each read with default 0) and triggers a UI
rerun; but when the wait times out with no value the loop stops via
st.stop() instead of re-polling. -/
theorem consumer_iter_behaviour (d : Json) :
    consumerPollTimeout = 1
    ∧ consumerIter (some d) = ConsumerAction.rerun
        ((d.getField "fps").getD (Json.num 0))
        ((d.getField "pieces_ok").getD (Json.num 0))
        ((d.getField "pieces_ng").getD (Json.num 0))
    ∧ consumerIter none = ConsumerAction.stopped :=
  ⟨rfl, rfl, rfl⟩

/-- C10: encoding the detection event with bboxes [[10, 20, 30, 40]],
confs [0.87], pieces_ng 1, pieces_ok 0, fps 29.5 into the detections
payload and reading the fields back yields identical values; the
confidence is rounded to 3 decimals on encode, which at 0.87 is exact and
in particular within the 1e-3 tolerance. -/
theorem detection_event_round_trip (ts : Rat) :
    (detPayload ts (59 / 2) c10dets).getField "bboxes"
        = some (Json.arr [Json.arr [Json.num 10, Json.num 20, Json.num 30, Json.num 40]])
    ∧ (detPayload ts (59 / 2) c10dets).getField "confs"
        = some (Json.arr [Json.num (pyRound3 (87 / 100))])
    ∧ pyRound3 (87 / 100) = 87 / 100
    ∧ |pyRound3 (87 / 100) - 87 / 100| ≤ 1 / 1000
    ∧ (detPayload ts (59 / 2) c10dets).getField "pieces_ng" = some (Json.num 1)
    ∧ (detPayload ts (59 / 2) c10dets).getField "pieces_ok" = some (Json.num 0)
    ∧ (detPayload ts (59 / 2) c10dets).getField "fps" = some (Json.num (59 / 2))
    ∧ (detPayload ts (59 / 2) c10dets).getField "ts" = some (Json.num ts) := by
  have hr : pyRound3 (87 / 100) = 87 / 100 := by
    norm_num [pyRound3, round_eq]
  refine ⟨rfl, rfl, hr, ?_, rfl, rfl, rfl, rfl⟩
  rw [hr]
  simp
